import Mathlib

/-!
Shallow embedding of the task-tracking backend (app/main.py, app/schemas.py,
app/models.py). The files app/crud.py, app/auth.py and app/database.py are
imported by app/main.py but are not part of the provided sources; the
operations they export are modelled from the specification, each marked
`Modelled from the spec:` in its doc comment.
-/

namespace Learnings

/-! ### Data model (app/models.py) -/

/-- Task row (app/models.py, class Task): integer primary key `id`, `title`
String(100), `description` String(500) nullable, `completed` Boolean with
default false. -/
structure Task where
  id : Nat
  title : String
  description : Option String
  completed : Bool
deriving Repr, DecidableEq

/-- User row (app/models.py, class User): integer primary key `id`, `username`
String(50) declared unique, `password` String(100) storing only the hashed
form. -/
structure User where
  id : Nat
  username : String
  password : String
deriving Repr, DecidableEq

/-- State of the relational store: the `tasks` and `users` tables in storage
order, together with the autoincrement counters backing the server-assigned
integer primary keys. -/
structure DB where
  tasks : List Task
  users : List User
  nextTaskId : Nat
  nextUserId : Nat
deriving Repr, DecidableEq

/-- The freshly created store (models.Base.metadata.create_all): both tables
empty, autoincrement counters at 1. -/
def emptyDB : DB := { tasks := [], users := [], nextTaskId := 1, nextUserId := 1 }

/-! ### Request schemas (app/schemas.py) -/

/-- app/schemas.py, TaskBase / TaskCreate: `title : str` required,
`description : str | None = None`, `completed : bool = False`. TaskCreate adds
nothing to TaskBase. No length constraint is declared on any field. -/
structure TaskCreate where
  title : String
  description : Option String := none
  completed : Bool := false
deriving Repr, DecidableEq

/-- app/schemas.py, UserCreate: `username : str` and `password : str`, both
required, with no further constraints. -/
structure UserCreate where
  username : String
  password : String
deriving Repr, DecidableEq

/-- JSON values as far as the two request schemas can observe them. -/
inductive Json where
  | null
  | str (s : String)
  | boolean (b : Bool)
  | num (n : Int)
deriving Repr, DecidableEq

/-- A JSON object body: association list from field name to value. -/
abbrev Body := List (String × Json)

/-- Reading an optional `str | None = None` field (pydantic): absent or null
gives the default `none`, a string is accepted, any other type is a 422
validation error. -/
def parseOptStr (j : Option Json) : Except Nat (Option String) :=
  match j with
  | none => Except.ok none
  | some Json.null => Except.ok none
  | some (Json.str s) => Except.ok (some s)
  | some _ => Except.error 422

/-- Reading an optional `bool = False` field (pydantic): absent gives the
default, a boolean is accepted, any other type is a 422 validation error. -/
def parseBoolDefaultFalse (j : Option Json) : Except Nat Bool :=
  match j with
  | none => Except.ok false
  | some (Json.boolean b) => Except.ok b
  | some _ => Except.error 422

/-- Schema validation of a POST /tasks/ body against schemas.TaskCreate:
`title` must be present and a string, `description` is an optional string
defaulting to null, `completed` an optional boolean defaulting to false.
The schema checks field presence and types only; schemas.py declares no
length bound, so no length check appears here. Failure is HTTP 422. -/
def validate_TaskCreate (body : Body) : Except Nat TaskCreate :=
  match List.lookup "title" body,
        parseOptStr (List.lookup "description" body),
        parseBoolDefaultFalse (List.lookup "completed" body) with
  | some (Json.str t), Except.ok d, Except.ok c =>
      Except.ok { title := t, description := d, completed := c }
  | _, _, _ => Except.error 422

/-- Schema validation of a POST /register/ body against schemas.UserCreate:
`username` and `password` must both be present strings; nothing else is
checked (in particular not non-emptiness). Failure is HTTP 422. -/
def validate_UserCreate (body : Body) : Except Nat UserCreate :=
  match List.lookup "username" body, List.lookup "password" body with
  | some (Json.str u), some (Json.str p) =>
      Except.ok { username := u, password := p }
  | _, _ => Except.error 422

/-! ### Auth helper (app/auth.py — not under src/, modelled from the spec) -/

/-- Modelled from the spec: `auth.get_password_hash` lives in app/auth.py,
which is not among the provided sources. Spec 4.3: a one-way hash of the
plaintext password, computed at registration time; the stored value is never
the plaintext. Modelled as a deterministic tagged encoding, which keeps the
two properties the claims use: it is a function of the password alone, and
its output always differs from its input. -/
def get_password_hash (password : String) : String := "$hash$" ++ password

/-- Modelled from the spec: `auth.verify_password` (app/auth.py, not under
src/). Spec 4.3: compares a supplied plaintext password against the stored
hash using the hash scheme's own comparison routine. -/
def verify_password (plain hashed : String) : Bool :=
  get_password_hash plain == hashed

/-- Modelled from the spec: `auth.create_access_token` (app/auth.py, not under
src/). Spec 4.3: produces a signed token embedding the subject; app/main.py
calls it with the payload whose "sub" entry is the username, modelled here as
the subject argument. -/
def create_access_token (sub : String) : String := "signed." ++ sub

/-! ### Persistence operations (app/crud.py — not under src/, modelled from
the spec) -/

/-- Modelled from the spec: `crud.create_task` (app/crud.py, not under src/).
Spec 4.2: "create a task row from validated input, return it"; spec 3: the
identifier is integer, server-assigned and unique; spec 8: the assigned id was
not previously seen. The row takes the next autoincrement id and is appended
to the table. -/
def crud_create_task (db : DB) (task : TaskCreate) : Task × DB :=
  let row : Task :=
    { id := db.nextTaskId, title := task.title,
      description := task.description, completed := task.completed }
  (row, { db with tasks := db.tasks ++ [row], nextTaskId := db.nextTaskId + 1 })

/-- Modelled from the spec: `crud.get_tasks` (app/crud.py, not under src/).
Spec 4.1: returns all Task rows, unfiltered, unpaginated, in storage order. -/
def crud_get_tasks (db : DB) : List Task := db.tasks

/-! ### HTTP layer (app/main.py) -/

/-- An HTTPException raised by a handler (fastapi.HTTPException). -/
structure HTTPException where
  status_code : Nat
  detail : String
deriving Repr, DecidableEq

/-- A redirect response (fastapi.responses.RedirectResponse). -/
structure RedirectResponse where
  url : String
  status_code : Nat
deriving Repr, DecidableEq

/-- An exception escaping a handler uncaught; the framework surfaces it as an
HTTP 500 server error. -/
structure UnhandledError where
  status_code : Nat
deriving Repr, DecidableEq

/-- The static JSON message body returned by register. -/
structure Message where
  message : String
deriving Repr, DecidableEq

/-- The JSON body returned by a successful login. -/
structure TokenResponse where
  access_token : String
  token_type : String
deriving Repr, DecidableEq

/-- app/main.py, read_root: `return RedirectResponse(url="/docs")`. No status
code is passed, so Starlette's RedirectResponse default status code 307 is
used. -/
def read_root : RedirectResponse := { url := "/docs", status_code := 307 }

/-- app/main.py, create_task endpoint: delegates to crud.create_task and
returns the created record. -/
def create_task (db : DB) (task : TaskCreate) : Task × DB :=
  crud_create_task db task

/-- app/main.py, read_tasks endpoint: delegates to crud.get_tasks; performs no
write, so the store is returned unchanged. -/
def read_tasks (db : DB) : List Task × DB :=
  (crud_get_tasks db, db)

/-- app/main.py, register endpoint: hashes the password, builds a User row and
commits it. users.username carries a unique constraint (app/models.py), so
committing a row whose username is already stored raises an integrity error;
register has no try/except, so that error escapes unhandled (HTTP 500, spec
7). On success the next autoincrement id is consumed, the row is appended,
and the static message is returned. -/
def register (db : DB) (user : UserCreate) : Except UnhandledError (Message × DB) :=
  let hashed_password := get_password_hash user.password
  let db_user : User :=
    { id := db.nextUserId, username := user.username, password := hashed_password }
  if db.users.any (fun u => u.username == user.username) then
    Except.error { status_code := 500 }
  else
    Except.ok ({ message := "User created" },
      { db with users := db.users ++ [db_user], nextUserId := db.nextUserId + 1 })

/-- app/main.py, login endpoint: queries the users table filtered by the
supplied username and takes the first row; raises HTTPException 401
"Invalid credentials" if no row was found or the password does not verify
against the stored hash; otherwise issues a token and returns it with token
type "bearer". The handler performs no write, so the store is returned
unchanged. -/
def login (db : DB) (username password : String) :
    Except HTTPException TokenResponse × DB :=
  let user := (db.users.filter (fun u => u.username == username)).head?
  match user with
  | none => (Except.error { status_code := 401, detail := "Invalid credentials" }, db)
  | some u =>
      if verify_password password u.password then
        (Except.ok { access_token := create_access_token username,
                     token_type := "bearer" }, db)
      else
        (Except.error { status_code := 401, detail := "Invalid credentials" }, db)

/-- The user-lookup step of login, named for use in statements:
`db.query(models.User).filter(models.User.username == username).first()`. -/
def findUserByUsername (db : DB) (username : String) : Option User :=
  (db.users.filter (fun u => u.username == username)).head?

/-! ### Supporting definitions and lemmas -/

/-- All ids already assigned in the tasks table are below the autoincrement
counter; holds for the fresh store and is preserved by every endpoint. -/
def DB.tasksWF (db : DB) : Prop := ∀ t ∈ db.tasks, t.id < db.nextTaskId

instance (db : DB) : Decidable db.tasksWF := by
  unfold DB.tasksWF; infer_instance

/-- A concrete store holding the single user alice with hashed password. -/
def dbAlice : DB :=
  { tasks := [],
    users := [{ id := 1, username := "alice", password := get_password_hash "secret" }],
    nextTaskId := 1, nextUserId := 2 }

theorem crud_create_task_preserves_tasksWF (db : DB) (task : TaskCreate)
    (h : db.tasksWF) : (crud_create_task db task).2.tasksWF := by
  intro t ht
  simp only [crud_create_task, List.mem_append, List.mem_singleton] at ht
  rcases ht with ht | ht
  · exact Nat.lt_succ_of_lt (h t ht)
  · subst ht; exact Nat.lt_succ_self _

theorem emptyDB_tasksWF : emptyDB.tasksWF := by decide

/-- The hash never equals the plaintext it was computed from: the tagged
encoding is six characters longer than its input. -/
theorem get_password_hash_ne (p : String) : get_password_hash p ≠ p := by
  intro h
  have hlen : (get_password_hash p).length = p.length := by rw [h]
  rw [get_password_hash, String.length_append] at hlen
  have h6 : ("$hash$" : String).length = 6 := rfl
  rw [h6] at hlen
  omega

/-! ### Claims -/

/-- Claim C1: for every database state and every login request to
POST /token/, if no user with the supplied username exists or password
verification of the supplied password against the stored hash fails, the
endpoint fails with HTTP 401; otherwise it returns a signed token together
with token type "bearer". -/
theorem C1_login_auth (db : DB) (username password : String) :
    (findUserByUsername db username = none →
      (login db username password).1 =
        Except.error { status_code := 401, detail := "Invalid credentials" }) ∧
    (∀ u, findUserByUsername db username = some u →
      verify_password password u.password = false →
      (login db username password).1 =
        Except.error { status_code := 401, detail := "Invalid credentials" }) ∧
    (∀ u, findUserByUsername db username = some u →
      verify_password password u.password = true →
      (login db username password).1 =
        Except.ok { access_token := create_access_token username,
                    token_type := "bearer" }) := by
  unfold login findUserByUsername
  refine ⟨fun h => ?_, fun u hu hv => ?_, fun u hu hv => ?_⟩
  · simp only [h]
  · simp [hu, hv]
  · simp [hu, hv]

/-- Witness for C1 at the concrete store dbAlice: the successful branch. -/
theorem C1_login_auth_witness :
    (login dbAlice "alice" "secret").1 =
      Except.ok { access_token := create_access_token "alice",
                  token_type := "bearer" } :=
  (C1_login_auth dbAlice "alice" "secret").2.2
    { id := 1, username := "alice", password := get_password_hash "secret" }
    (by decide) (by decide)

/-- A sequence of successful POST /tasks/ creations, applied left to right. -/
def createMany (db : DB) (ts : List TaskCreate) : DB :=
  ts.foldl (fun d t => (create_task d t).2) db

/-- A returned record carries exactly the submitted fields. -/
def matchesInput (row : Task) (inp : TaskCreate) : Prop :=
  row.title = inp.title ∧ row.description = inp.description ∧
    row.completed = inp.completed

instance (row : Task) (inp : TaskCreate) : Decidable (matchesInput row inp) := by
  unfold matchesInput; infer_instance

/-- Each creation appends exactly one row, so a sequence of creations appends
a block of rows matching the submitted inputs in order. -/
theorem createMany_tasks (ts : List TaskCreate) (db : DB) :
    ∃ recs, (createMany db ts).tasks = db.tasks ++ recs ∧
      List.Forall₂ matchesInput recs ts := by
  induction ts generalizing db with
  | nil => exact ⟨[], by simp [createMany], List.Forall₂.nil⟩
  | cons t ts ih =>
      obtain ⟨recs, hrecs, hmatch⟩ := ih (create_task db t).2
      refine ⟨(create_task db t).1 :: recs, ?_, ?_⟩
      · have : (createMany db (t :: ts)) = createMany (create_task db t).2 ts := rfl
        rw [this, hrecs]
        simp [create_task, crud_create_task]
      · exact List.Forall₂.cons ⟨rfl, rfl, rfl⟩ hmatch

/-- Claim C2: for every sequence of N successful POST /tasks/ creations
starting from an empty task store, GET /tasks/ returns exactly N records,
each matching the submitted input, with all Task rows returned unfiltered,
unpaginated and in storage order. -/
theorem C2_create_then_list (db : DB) (h : db.tasks = []) (ts : List TaskCreate) :
    (read_tasks (createMany db ts)).1.length = ts.length ∧
    List.Forall₂ matchesInput (read_tasks (createMany db ts)).1 ts := by
  obtain ⟨recs, hrecs, hmatch⟩ := createMany_tasks ts db
  have hall : (read_tasks (createMany db ts)).1 = recs := by
    simp [read_tasks, crud_get_tasks, hrecs, h]
  rw [hall]
  exact ⟨hmatch.length_eq, hmatch⟩

/-- Witness for C2: two concrete creations starting from the fresh store. -/
theorem C2_create_then_list_witness :
    (read_tasks (createMany emptyDB
        [{ title := "a" }, { title := "b", description := some "d", completed := true }])).1.length =
      ([{ title := "a" },
        { title := "b", description := some "d", completed := true }] : List TaskCreate).length ∧
    List.Forall₂ matchesInput
      (read_tasks (createMany emptyDB
        [{ title := "a" }, { title := "b", description := some "d", completed := true }])).1
      [{ title := "a" }, { title := "b", description := some "d", completed := true }] :=
  C2_create_then_list emptyDB rfl
    [{ title := "a" }, { title := "b", description := some "d", completed := true }]

/-- Claim C3: for every POST /tasks/ request whose body contains only a title,
the created record returned has completed false, description null, and a newly
assigned integer id not previously assigned to any task. -/
theorem C3_title_only_defaults (db : DB) (hwf : db.tasksWF) (s : String)
    (tc : TaskCreate)
    (hval : validate_TaskCreate [("title", Json.str s)] = Except.ok tc) :
    (create_task db tc).1.completed = false ∧
    (create_task db tc).1.description = none ∧
    ∀ t ∈ db.tasks, t.id ≠ (create_task db tc).1.id := by
  have htc : tc = { title := s, description := none, completed := false } := by
    simp only [validate_TaskCreate, List.lookup, parseOptStr,
      parseBoolDefaultFalse] at hval
    exact (Except.ok.injEq _ _).mp hval.symm
  subst htc
  refine ⟨rfl, rfl, fun t ht heq => ?_⟩
  have hlt : t.id < db.nextTaskId := hwf t ht
  have hid : (create_task db { title := s }).1.id = db.nextTaskId := rfl
  rw [hid] at heq
  omega

/-- Witness for C3: creating "Buy milk" in the fresh store. -/
theorem C3_title_only_defaults_witness :
    (create_task emptyDB { title := "Buy milk" }).1.completed = false ∧
    (create_task emptyDB { title := "Buy milk" }).1.description = none ∧
    ∀ t ∈ emptyDB.tasks, t.id ≠ (create_task emptyDB { title := "Buy milk" }).1.id :=
  C3_title_only_defaults emptyDB (by decide) "Buy milk" { title := "Buy milk" } rfl

/-- Claim C4: for every pair of failing login attempts — one with an existing
username but wrong password, one with a nonexistent username — POST /token/
returns HTTP 401 in both cases and the two error responses are equal, so they
leak no information about which field was wrong. -/
theorem C4_error_indistinguishable (db : DB) (u1 p1 u2 p2 : String) (usr : User)
    (h1 : findUserByUsername db u1 = some usr)
    (h2 : verify_password p1 usr.password = false)
    (h3 : findUserByUsername db u2 = none) :
    (login db u1 p1).1 =
      Except.error { status_code := 401, detail := "Invalid credentials" } ∧
    (login db u2 p2).1 = (login db u1 p1).1 := by
  unfold login
  unfold findUserByUsername at h1 h3
  constructor
  · simp [h1, h2]
  · simp [h1, h2, h3]

/-- Witness for C4: wrong password for alice versus the absent username bob,
in the concrete store dbAlice. -/
theorem C4_error_indistinguishable_witness :
    (login dbAlice "alice" "wrong").1 =
      Except.error { status_code := 401, detail := "Invalid credentials" } ∧
    (login dbAlice "bob" "anything").1 = (login dbAlice "alice" "wrong").1 :=
  C4_error_indistinguishable dbAlice "alice" "wrong" "bob" "anything"
    { id := 1, username := "alice", password := get_password_hash "secret" }
    (by decide) (by decide) (by decide)

/-- Claim C5: for every valid POST /register/ request (here: one whose
username is not yet stored — the duplicate path is claim C6), the endpoint
hashes the supplied password, persists a new User row whose stored password
value is the hash and differs from the supplied plaintext, and returns the
static confirmation message, which does not depend on the created
identifier. -/
theorem C5_register_hashes_and_persists (db : DB) (uc : UserCreate)
    (hfresh : db.users.any (fun u => u.username == uc.username) = false) :
    register db uc =
      Except.ok ({ message := "User created" },
        { db with
            users := db.users ++
              [{ id := db.nextUserId, username := uc.username,
                 password := get_password_hash uc.password }],
            nextUserId := db.nextUserId + 1 }) ∧
    get_password_hash uc.password ≠ uc.password := by
  constructor
  · simp [register, hfresh]
  · exact get_password_hash_ne uc.password

/-- Witness for C5: registering alice with password "secret" in the fresh
store. -/
theorem C5_register_hashes_and_persists_witness :
    register emptyDB { username := "alice", password := "secret" } =
      Except.ok ({ message := "User created" },
        { emptyDB with
            users := emptyDB.users ++
              [{ id := emptyDB.nextUserId, username := "alice",
                 password := get_password_hash "secret" }],
            nextUserId := emptyDB.nextUserId + 1 }) ∧
    get_password_hash "secret" ≠ "secret" :=
  C5_register_hashes_and_persists emptyDB
    { username := "alice", password := "secret" } (by decide)

/-- Claim C6: for every POST /register/ request whose username already exists
in the users table, the uniqueness-constraint violation is not caught or
translated by the API layer and propagates as an unhandled server error
(HTTP 500), never as a handled conflict response. -/
theorem C6_duplicate_username_500 (db : DB) (uc : UserCreate)
    (hdup : ∃ u ∈ db.users, u.username = uc.username) :
    register db uc = Except.error { status_code := 500 } := by
  obtain ⟨u, hu, hname⟩ := hdup
  have hany : db.users.any (fun v => v.username == uc.username) = true :=
    List.any_eq_true.mpr ⟨u, hu, by simp [hname]⟩
  simp [register, hany]

/-- Witness for C6: registering alice a second time in dbAlice. -/
theorem C6_duplicate_username_500_witness :
    register dbAlice { username := "alice", password := "other" } =
      Except.error { status_code := 500 } :=
  C6_duplicate_username_500 dbAlice { username := "alice", password := "other" }
    ⟨{ id := 1, username := "alice", password := get_password_hash "secret" },
      by decide, rfl⟩

/-- A title of 101 characters, one past the bound the claim asserts. -/
def longTitle : String := String.mk (List.replicate 101 'a')

/-- Counterexample to claim C7: a body whose title has 101 characters is not
rejected — schema validation accepts it and POST /tasks/ stores it in full. -/
theorem C7_counterexample :
    longTitle.length = 101 ∧
    validate_TaskCreate [("title", Json.str longTitle)] =
      Except.ok { title := longTitle } ∧
    (create_task emptyDB { title := longTitle }).1.title = longTitle := by
  exact ⟨by decide, rfl, rfl⟩

/-- Claim C7 as amended: schemas.py declares no length constraint, so schema
validation accepts a title and a description of any length; the 100 and 500
column sizes in app/models.py are storage declarations that the validation
layer does not enforce. -/
theorem C7_no_length_validation (s d : String) :
    validate_TaskCreate [("title", Json.str s), ("description", Json.str d)] =
      Except.ok { title := s, description := some d } := rfl

/-- Counterexample to claim C8: the redirect returned for GET / does not carry
status 302. -/
theorem C8_counterexample : read_root.status_code ≠ 302 := by decide

/-- Claim C8 as amended: every GET / request receives a redirect response to
the interactive API documentation page /docs with status 307, Starlette's
default for RedirectResponse, rather than 302. -/
theorem C8_redirect_to_docs :
    read_root.url = "/docs" ∧ read_root.status_code = 307 := by decide

/-- Claim C9: for every database state, GET /tasks/ and POST /token/ leave the
stored tasks and users unchanged; in particular a login that fails with HTTP
401 leaves the database exactly as it was before the request. -/
theorem C9_read_paths_frame (db : DB) (username password : String) :
    (read_tasks db).2 = db ∧
    (login db username password).2 = db ∧
    (∀ e, (login db username password).1 = Except.error e →
      (login db username password).2 = db) := by
  refine ⟨rfl, ?_, fun e _ => ?_⟩ <;>
    · unfold login
      cases (db.users.filter (fun u => u.username == username)).head? with
      | none => rfl
      | some u =>
          by_cases hv : verify_password password u.password <;> simp [hv]

/-- Witness for C9 at the concrete store dbAlice and a failing login. -/
theorem C9_read_paths_frame_witness :
    (read_tasks dbAlice).2 = dbAlice ∧
    (login dbAlice "bob" "x").2 = dbAlice ∧
    (∀ e, (login dbAlice "bob" "x").1 = Except.error e →
      (login dbAlice "bob" "x").2 = dbAlice) :=
  C9_read_paths_frame dbAlice "bob" "x"

/-- Claim C10: POST /register/ accepts the empty string for username and for
password — schema validation checks types only, not non-emptiness — and (when
no user with the empty username is stored yet) registering both as empty
succeeds, creates a User row, and returns the "User created" message. -/
theorem C10_empty_strings_accepted (db : DB)
    (hfresh : db.users.any (fun u => u.username == "") = false) :
    validate_UserCreate [("username", Json.str ""), ("password", Json.str "")] =
      Except.ok { username := "", password := "" } ∧
    register db { username := "", password := "" } =
      Except.ok ({ message := "User created" },
        { db with
            users := db.users ++
              [{ id := db.nextUserId, username := "",
                 password := get_password_hash "" }],
            nextUserId := db.nextUserId + 1 }) := by
  exact ⟨rfl, by simp [register, hfresh]⟩

/-- Witness for C10: the fresh store. -/
theorem C10_empty_strings_accepted_witness :
    validate_UserCreate [("username", Json.str ""), ("password", Json.str "")] =
      Except.ok { username := "", password := "" } ∧
    register emptyDB { username := "", password := "" } =
      Except.ok ({ message := "User created" },
        { emptyDB with
            users := emptyDB.users ++
              [{ id := emptyDB.nextUserId, username := "",
                 password := get_password_hash "" }],
            nextUserId := emptyDB.nextUserId + 1 }) :=
  C10_empty_strings_accepted emptyDB (by decide)

end Learnings
